import Mathlib

/-
Shallow embedding of the two DataUpdateCoordinator variants of the
cometblue custom component repository:

  * src/custom_components/eurotronic_cometblue/coordinator.py  (refined variant,
    namespace `Eurotronic` below): send_command with an in-invocation retry
    loop, and an _async_update_data whose while-loop retries the whole
    connect/read cycle on retryable errors, swallowing malformed-byte errors on
    the optional battery/holiday reads.
  * src/custom_components/cometblue/coordinator.py  (legacy variant, namespace
    `Legacy` below): single-attempt send_command and _async_update_data, with a
    cross-invocation failed_update_count.

Python values that matter here are modelled by `Val` with Python truthiness;
dicts are association lists where a prepended entry overrides earlier ones
under lookup (`sget`), matching Python dict update order in the literals the
code builds.  Exceptions are modelled by `ErrKind`/`PyExn`; the device session
(`AsyncCometBlue`) is modelled by the outcome each of its operations would
produce on each connection attempt (`AttemptBehavior`, `CmdAttempt`).  The
except-clauses of each function are translated clause by clause, in source
order.  `CONF_ALL_TEMPERATURES` lives in the const module, which is not part
of the sources here; per the spec it is a fixed configuration list of
temperature field identifiers, so the definitions take it as the parameter
`allTemps`.
-/

namespace CometBlue

/-- RETRY_COUNT = 3 (both coordinator files, line 28/29). -/
def RETRY_COUNT : Nat := 3

/-- Python values the coordinator handles: ints (battery, temperatures),
structured values (the holiday dict), and None. -/
inductive Val where
  | vInt (n : Int)
  | vStruct (fields : List (String × Int))
  | vNone
deriving DecidableEq, Repr

/-- Python truthiness: 0, empty dict and None are falsy. -/
def Val.truthy : Val → Bool
  | .vInt n => decide (n ≠ 0)
  | .vStruct l => decide (l ≠ [])
  | .vNone => false

/-- Python `a or b`. -/
def pyOr (a b : Val) : Val := if a.truthy then a else b

/-- A Python dict, sent field name to value; a prepended entry overrides. -/
abbrev Snapshot := List (String × Val)

/-- Python `d.get(k)`: the value stored for `k`, or None. -/
def sget (s : Snapshot) (k : String) : Val :=
  match s.find? (fun p => p.1 == k) with
  | some p => p.2
  | none => Val.vNone

/-- The exception classes the coordinator distinguishes:
InvalidByteValueError, TimeoutError, BleakError, ValueError, and any other
exception class.  The library hierarchy between them is not part of these
sources, so they are kept distinct. -/
inductive ErrKind where
  | invalidByte
  | timeout
  | bleak
  | valueError
  | other
deriving DecidableEq, Repr

/-- An exception as it propagates: a device/selection error, or the
ConfigEntryNotReady raised on a not-connected session. -/
inductive PyExn where
  | err (k : ErrKind)
  | notReady
deriving DecidableEq, Repr

/-- Membership in the tuple `(InvalidByteValueError, TimeoutError, BleakError)`
of the retry-handling except clauses. -/
def ErrKind.retryable : ErrKind → Bool
  | .invalidByte => true
  | .timeout => true
  | .bleak => true
  | .valueError => false
  | .other => false

/-- What the device session would do during one `async with` block of the
polling path: the `connected` flag after entering, and the outcome of each
read operation, were it invoked. -/
structure AttemptBehavior where
  connected : Bool
  temps : Except ErrKind Snapshot
  battery : Except ErrKind Val
  holiday : Except ErrKind Val

/-- The loop variables of the refined `_async_update_data`
(`retrieved_temperatures`, `battery`, `holiday`), which persist across loop
iterations. -/
structure Vars where
  temps : Snapshot
  battery : Val
  holiday : Val
deriving DecidableEq, Repr

/-- Initial loop variables (refined coordinator lines 98-100):
`retrieved_temperatures = {}`, `battery = 0`, `holiday = {}`. -/
def initVars : Vars := ⟨[], .vInt 0, .vStruct []⟩

/-- Outcome of one `async with self.device` block of the refined polling
loop: the body completed (malformed optional reads swallowed), or an
exception escaped it; either way the loop variables after the partial
assignments are carried along. -/
inductive AttemptStep where
  | completed (v : Vars)
  | exn (e : PyExn) (v : Vars)
deriving DecidableEq, Repr

namespace Eurotronic

/-- One iteration body of the refined `_async_update_data` while-loop
(coordinator.py lines 104-120): enter the session, raise ConfigEntryNotReady
if not connected, read the mandatory temperatures, then read battery and
holiday inside an inner try that swallows (logs) InvalidByteValueError.  The
boolean records whether `get_holiday_async` was invoked during the attempt. -/
def runAttempt (v : Vars) (b : AttemptBehavior) : AttemptStep × Bool :=
  if b.connected then
    match b.temps with
    | .error e => (.exn (.err e) v, false)
    | .ok t =>
      match b.battery with
      | .error e =>
        if e = .invalidByte then
          (.completed ⟨t, v.battery, v.holiday⟩, false)
        else
          (.exn (.err e) ⟨t, v.battery, v.holiday⟩, false)
      | .ok bv =>
        match b.holiday with
        | .error e =>
          if e = .invalidByte then
            (.completed ⟨t, bv, v.holiday⟩, true)
          else
            (.exn (.err e) ⟨t, bv, v.holiday⟩, true)
        | .ok hv => (.completed ⟨t, bv, hv⟩, true)
  else (.exn .notReady v, false)

end Eurotronic

/-- The temperature part of the data dict literals: for each key of
`CONF_ALL_TEMPERATURES`, `retrieved_temperatures.get(k) or self.data.get(k)`,
entered into the dict `d0` (later entries override). -/
def mergeTemps (allTemps : List String) (t prevData d0 : Snapshot) : Snapshot :=
  allTemps.foldl (fun d k => (k, pyOr (sget t k) (sget prevData k)) :: d) d0

/-- The data dict built after the refined update loop (lines 134-141):
battery and holiday fall back to the stored value when the fresh value is
falsy, and every temperature key is merged the same way. -/
def mergeData (allTemps : List String) (prev : Snapshot) (battery holiday : Val)
    (t : Snapshot) : Snapshot :=
  mergeTemps allTemps t prev
    [("holiday", pyOr holiday (sget prev "holiday")),
     ("battery", pyOr battery (sget prev "battery"))]

/-- Result of the refined polling path on a finite list of prescribed session
behaviors: the merged snapshot returned after the loop, an UpdateFailed raise,
or `moreAttempts`: the loop asked for yet another connect/read cycle after all
prescribed behaviors were consumed. -/
inductive PollOutcome where
  | snapshot (s : Snapshot)
  | updateFailed (cause : PyExn)
  | moreAttempts
deriving DecidableEq, Repr

namespace Eurotronic

/-- The refined `_async_update_data` while-loop (lines 102-131) together with
the merge/return after it (lines 134-143).  Each list element is consumed by
one `async with` connection attempt; the second component counts the attempts
performed.  Retryable errors increment `retry_count` and raise UpdateFailed at
RETRY_COUNT; any other exception (including ConfigEntryNotReady) is caught by
the final `except Exception` and re-raised as UpdateFailed at once.  A
completed body leaves `retry_count` unchanged and re-enters the loop. -/
def pollLoop (allTemps : List String) (prev : Snapshot) :
    List AttemptBehavior → Nat → Vars → PollOutcome × Nat
  | [], rc, v =>
    if rc < RETRY_COUNT then (.moreAttempts, 0)
    else (.snapshot (mergeData allTemps prev v.battery v.holiday v.temps), 0)
  | b :: rest, rc, v =>
    if rc < RETRY_COUNT then
      match runAttempt v b with
      | (.completed v2, _) =>
        let r := pollLoop allTemps prev rest rc v2
        (r.1, r.2 + 1)
      | (.exn (.err e) v2, _) =>
        if e.retryable then
          if RETRY_COUNT ≤ rc + 1 then (.updateFailed (.err e), 1)
          else
            let r := pollLoop allTemps prev rest (rc + 1) v2
            (r.1, r.2 + 1)
        else (.updateFailed (.err e), 1)
      | (.exn .notReady _, _) => (.updateFailed .notReady, 1)
    else (.snapshot (mergeData allTemps prev v.battery v.holiday v.temps), 0)

/-- The refined `_async_update_data` (lines 93-143): run the while-loop from
`retry_count = 0` with the initial loop variables; `prev` is `self.data`. -/
def async_update_data (allTemps : List String) (prev : Snapshot)
    (behs : List AttemptBehavior) : PollOutcome × Nat :=
  pollLoop allTemps prev behs 0 initVars

end Eurotronic

/-- What the device session would do during one `async with` block of the
command path: the `connected` flag, and the outcome of
`getattr(self.device, function)(**payload)`. -/
structure CmdAttempt where
  connected : Bool
  op : Except ErrKind Val

/-- Result of a send_command invocation: the returned value, a
HomeAssistantError naming the last communication error, a
ServiceValidationError, a propagating ConfigEntryNotReady, a propagating
unhandled exception, `moreAttempts` (the loop asked for another attempt after
the prescribed behaviors ran out), or the implicit None of a function body
that falls through without returning. -/
inductive CmdOutcome where
  | ok (v : Val)
  | commError (last : ErrKind)
  | validationError
  | notReady
  | raised (e : ErrKind)
  | moreAttempts
  | implicitNone
deriving DecidableEq, Repr

namespace Eurotronic

/-- The refined send_command while-loop (lines 66-91).  Components of the
result: outcome, number of connection attempts performed, number of
informational retry log entries emitted. -/
def cmdLoop : List CmdAttempt → Nat → CmdOutcome × Nat × Nat
  | [], rc =>
    if rc < RETRY_COUNT then (.moreAttempts, 0, 0)
    else (.implicitNone, 0, 0)
  | b :: rest, rc =>
    if rc < RETRY_COUNT then
      if b.connected then
        match b.op with
        | .ok v => (.ok v, 1, 0)
        | .error e =>
          if e.retryable then
            if RETRY_COUNT ≤ rc + 1 then (.commError e, 1, 0)
            else
              let r := cmdLoop rest (rc + 1)
              (r.1, r.2.1 + 1, r.2.2 + 1)
          else if e = .valueError then (.validationError, 1, 0)
          else (.raised e, 1, 0)
      else (.notReady, 1, 0)
    else (.implicitNone, 0, 0)

/-- The refined send_command (lines 60-91): the retry loop from
`retry_count = 0`. -/
def send_command (behs : List CmdAttempt) : CmdOutcome × Nat × Nat :=
  cmdLoop behs 0

end Eurotronic

/-- The mutable coordinator state both variants carry: `failed_update_count`
and `self.data`. -/
structure CoordState where
  failed_update_count : Nat
  data : Snapshot
deriving DecidableEq, Repr

namespace Eurotronic

/-- send_command references neither `failed_update_count` nor `self.data`;
threading the coordinator state records that it is returned unchanged. -/
def send_command_st (st : CoordState) (behs : List CmdAttempt) :
    (CmdOutcome × Nat × Nat) × CoordState :=
  (send_command behs, st)

end Eurotronic

/-- Result of one legacy `_async_update_data` invocation. -/
inductive CbOutcome where
  | snapshot (s : Snapshot)
  | updateFailed (cause : PyExn)
deriving DecidableEq, Repr

namespace Legacy

/-- The try-block body of the legacy `_async_update_data` (lines 90-107):
raise ConfigEntryNotReady if not connected, read temperatures, then build the
data dict with a fresh battery, a fresh holiday, and the temperature keys
merged against `self.data`; any read error propagates. -/
def updateBody (allTemps : List String) (st : CoordState) (b : AttemptBehavior) :
    Except PyExn Snapshot :=
  if b.connected then
    match b.temps with
    | .error e => .error (.err e)
    | .ok t =>
      match b.battery with
      | .error e => .error (.err e)
      | .ok bv =>
        match b.holiday with
        | .error e => .error (.err e)
        | .ok hv => .ok (mergeTemps allTemps t st.data [("holiday", hv), ("battery", bv)])
  else .error .notReady

/-- The except clauses of the legacy `_async_update_data` (lines 108-116):
InvalidByteValueError is swallowed (old data returned, counter incremented)
while the counter is below RETRY_COUNT and a previous snapshot exists, and
raises UpdateFailed with the counter unchanged otherwise; every other
exception increments the counter and raises UpdateFailed. -/
def handleUpdateError : Except PyExn Snapshot → CoordState → CbOutcome × CoordState
  | .ok d, _ => (.snapshot d, ⟨0, d⟩)
  | .error (.err .invalidByte), st =>
    if st.failed_update_count < RETRY_COUNT ∧ st.data ≠ [] then
      (.snapshot st.data, ⟨st.failed_update_count + 1, st.data⟩)
    else (.updateFailed (.err .invalidByte), st)
  | .error e, st => (.updateFailed e, ⟨st.failed_update_count + 1, st.data⟩)

/-- The legacy `_async_update_data` (lines 85-118).  On a successful body the
counter is reset to 0 (line 107) and the DataUpdateCoordinator stores the
returned dict as `self.data`; on the swallow path the old data is returned
(and so stored again). -/
def async_update_data (allTemps : List String) (st : CoordState)
    (b : AttemptBehavior) : CbOutcome × CoordState :=
  handleUpdateError (updateBody allTemps st b) st

/-- The legacy send_command (lines 59-83): a single attempt; ValueError maps
to ServiceValidationError, BleakError and TimeoutError map to
HomeAssistantError, any other exception propagates; on success the operation
result is bound to a local that is never returned, so the function falls
through and returns None. -/
def send_command (b : CmdAttempt) : CmdOutcome :=
  if b.connected then
    match b.op with
    | .ok _ => .implicitNone
    | .error e =>
      if e = .valueError then .validationError
      else if e = .bleak then .commError e
      else if e = .timeout then .commError e
      else .raised e
  else .notReady

/-- Legacy send_command likewise never touches the coordinator state. -/
def send_command_st (st : CoordState) (b : CmdAttempt) : CmdOutcome × CoordState :=
  (send_command b, st)

end Legacy

/-- The `available` property of CometBlueBluetoothEntity (identical in both
files): `failed_update_count < RETRY_COUNT and async_address_present(...)`. -/
def available (failed_update_count : Nat) (address_present : Bool) : Bool :=
  decide (failed_update_count < RETRY_COUNT) && address_present

/-! ### Helper lemmas about dict lookup and the temperature merge -/

theorem sget_cons (k2 : String) (v : Val) (d : Snapshot) (k : String) :
    sget ((k2, v) :: d) k = if k2 = k then v else sget d k := by
  by_cases h : k2 = k
  · subst h
    simp [sget, List.find?]
  · have hb : (k2 == k) = false := beq_eq_false_iff_ne.mpr h
    simp [sget, List.find?, hb, h]

theorem sget_mergeTemps_not_mem (allTemps : List String) (t prevData d0 : Snapshot)
    (k : String) (hk : k ∉ allTemps) :
    sget (mergeTemps allTemps t prevData d0) k = sget d0 k := by
  induction allTemps generalizing d0 with
  | nil => rfl
  | cons a l ih =>
    have hal : k ∉ l := fun h => hk (List.mem_cons_of_mem a h)
    have hak : a ≠ k := fun h => hk (h ▸ List.mem_cons_self a l)
    have : mergeTemps (a :: l) t prevData d0
        = mergeTemps l t prevData ((a, pyOr (sget t a) (sget prevData a)) :: d0) := rfl
    rw [this, ih _ hal, sget_cons, if_neg hak]

theorem sget_mergeTemps_mem (allTemps : List String) (t prevData d0 : Snapshot)
    (k : String) (hk : k ∈ allTemps) :
    sget (mergeTemps allTemps t prevData d0) k = pyOr (sget t k) (sget prevData k) := by
  induction allTemps generalizing d0 with
  | nil => cases hk
  | cons a l ih =>
    have hstep : mergeTemps (a :: l) t prevData d0
        = mergeTemps l t prevData ((a, pyOr (sget t a) (sget prevData a)) :: d0) := rfl
    by_cases hkl : k ∈ l
    · rw [hstep, ih _ hkl]
    · have hak : a = k := by
        rcases List.mem_cons.mp hk with h | h
        · exact h.symm
        · exact absurd h hkl
      rw [hstep, sget_mergeTemps_not_mem l t prevData _ k hkl, sget_cons, if_pos hak,
        hak]

theorem sget_mergeData_battery (allTemps : List String) (prev t : Snapshot)
    (bv hv : Val) (hb : "battery" ∉ allTemps) :
    sget (mergeData allTemps prev bv hv t) "battery" = pyOr bv (sget prev "battery") := by
  rw [mergeData, sget_mergeTemps_not_mem _ _ _ _ _ hb, sget_cons,
    if_neg (by decide), sget_cons, if_pos rfl]

theorem sget_mergeData_holiday (allTemps : List String) (prev t : Snapshot)
    (bv hv : Val) (hh : "holiday" ∉ allTemps) :
    sget (mergeData allTemps prev bv hv t) "holiday" = pyOr hv (sget prev "holiday") := by
  rw [mergeData, sget_mergeTemps_not_mem _ _ _ _ _ hh, sget_cons, if_pos rfl]

theorem sget_mergeData_temp (allTemps : List String) (prev t : Snapshot)
    (bv hv : Val) (k : String) (hk : k ∈ allTemps) :
    sget (mergeData allTemps prev bv hv t) k = pyOr (sget t k) (sget prev k) := by
  rw [mergeData, sget_mergeTemps_mem _ _ _ _ _ hk]

theorem pyOr_falsy (a b : Val) (ha : a.truthy = false) : pyOr a b = b := by
  rw [pyOr, ha]
  rfl

/-! ### Helper lemmas about the refined polling loop -/

/-- If every attempt against behavior `b` completes its body, the refined
update loop consumes every prescribed attempt without terminating: the
success path never leaves the while-loop. -/
theorem pollLoop_replicate_completed (allTemps : List String) (prev : Snapshot)
    (b : AttemptBehavior)
    (hb : ∀ v : Vars, ∃ v2 fl, Eurotronic.runAttempt v b = (.completed v2, fl)) :
    ∀ (n rc : Nat) (v : Vars), rc < RETRY_COUNT →
      Eurotronic.pollLoop allTemps prev (List.replicate n b) rc v = (.moreAttempts, n) := by
  intro n
  induction n with
  | zero =>
    intro rc v h
    simp [Eurotronic.pollLoop, h]
  | succ n ih =>
    intro rc v h
    obtain ⟨v2, fl, hv⟩ := hb v
    rw [List.replicate_succ]
    simp [Eurotronic.pollLoop, h, hv, ih rc v2 h]

/-! ### Helper lemmas about the refined command loop -/

theorem cmdLoop_fail_then_ok (e : ErrKind) (he : e.retryable = true) (v : Val)
    (rest : List CmdAttempt) :
    ∀ (k rc : Nat), rc + k < RETRY_COUNT →
      Eurotronic.cmdLoop
          (List.replicate k ⟨true, .error e⟩ ++ (⟨true, .ok v⟩ :: rest)) rc
        = (.ok v, k + 1, k) := by
  intro k
  induction k with
  | zero =>
    intro rc h
    simp only [List.replicate_zero, List.nil_append]
    simp [Eurotronic.cmdLoop, Nat.lt_of_add_right_lt h]
  | succ k ih =>
    intro rc h
    have hrc : rc < RETRY_COUNT := by omega
    have hrc1 : ¬ RETRY_COUNT ≤ rc + 1 := by omega
    rw [List.replicate_succ, List.cons_append]
    simp [Eurotronic.cmdLoop, hrc, he, hrc1, ih (rc + 1) (by omega)]

theorem cmdLoop_fail_exhausted (e : ErrKind) (he : e.retryable = true)
    (rest : List CmdAttempt) :
    ∀ (k rc : Nat), rc < RETRY_COUNT → RETRY_COUNT ≤ rc + k →
      Eurotronic.cmdLoop (List.replicate k ⟨true, .error e⟩ ++ rest) rc
        = (.commError e, RETRY_COUNT - rc, RETRY_COUNT - rc - 1) := by
  intro k
  induction k with
  | zero =>
    intro rc h1 h2
    omega
  | succ k ih =>
    intro rc h1 h2
    rw [List.replicate_succ, List.cons_append]
    by_cases h3 : RETRY_COUNT ≤ rc + 1
    · have : RETRY_COUNT - rc = 1 := by omega
      simp [Eurotronic.cmdLoop, h1, he, h3, this]
    · have h4 : rc + 1 < RETRY_COUNT := by omega
      have h5 : RETRY_COUNT ≤ rc + 1 + k := by omega
      have e1 : RETRY_COUNT - (rc + 1) + 1 = RETRY_COUNT - rc := by omega
      have e2 : RETRY_COUNT - (rc + 1) - 1 + 1 = RETRY_COUNT - rc - 1 := by omega
      simp [Eurotronic.cmdLoop, h1, he, h3, ih (rc + 1) h4 h5, e1, e2]

/-! ### Concrete session behaviors used by the polling theorems -/

/-- A fully successful session attempt: connected, temperatures read,
battery 50, one holiday entry. -/
def goodB (t : Snapshot) : AttemptBehavior :=
  ⟨true, .ok t, .ok (.vInt 50), .ok (.vStruct [("d", 1)])⟩

/-- A session attempt where the temperatures succeed and the battery read
raises InvalidByteValueError. -/
def battMalB (t : Snapshot) : AttemptBehavior :=
  ⟨true, .ok t, .error .invalidByte, .ok (.vStruct [("d", 1)])⟩

/-! ### Claim theorems -/

/-- C1: the refined polling loop has no break or return on a successful
attempt, so with a session that fails k = 0 times and then always succeeds,
poll does not return a Snapshot after min(k+1,3) = 1 connect/read sequence:
it consumes every one of the n prescribed successful attempts and is still
inside the while-loop, for every n.  The merge/return after the loop is
unreachable. -/
theorem c1_poll_never_returns (allTemps : List String) (prev t : Snapshot) (n : Nat) :
    Eurotronic.async_update_data allTemps prev (List.replicate n (goodB t))
      = (.moreAttempts, n) :=
  pollLoop_replicate_completed allTemps prev (goodB t)
    (fun _ => ⟨⟨t, .vInt 50, .vStruct [("d", 1)]⟩, true, rfl⟩) n 0 initVars (by decide)

/-- C2: the merge expression of the refined coordinator (lines 134-141) does
carry every previously stored field forward whenever the fresh read of that
field is falsy or missing: battery, holiday, and each temperature key fall
back to the stored value.  (The expression is dead code: the missing loop
break means no cycle ever reaches it.) -/
theorem c2_merge_carries_forward (allTemps : List String) (prev t : Snapshot)
    (bv hv : Val) (hb : "battery" ∉ allTemps) (hh : "holiday" ∉ allTemps)
    (hbf : bv.truthy = false) (hhf : hv.truthy = false) :
    sget (mergeData allTemps prev bv hv t) "battery" = sget prev "battery" ∧
    sget (mergeData allTemps prev bv hv t) "holiday" = sget prev "holiday" ∧
    ∀ k ∈ allTemps, (sget t k).truthy = false →
      sget (mergeData allTemps prev bv hv t) k = sget prev k := by
  refine ⟨?_, ?_, ?_⟩
  · rw [sget_mergeData_battery _ _ _ _ _ hb, pyOr_falsy _ _ hbf]
  · rw [sget_mergeData_holiday _ _ _ _ _ hh, pyOr_falsy _ _ hhf]
  · intro k hk hf
    rw [sget_mergeData_temp _ _ _ _ _ _ hk, pyOr_falsy _ _ hf]

/-- Witness for C2 at a concrete merge: previous snapshot has battery 77,
holiday and eco; the fresh cycle read battery 0, an empty holiday and no eco
value, and each stored value is carried forward. -/
theorem c2_merge_carries_forward_witness :
    sget (mergeData ["eco", "comfort"]
        [("battery", .vInt 77), ("holiday", .vStruct [("d", 3)]), ("eco", .vInt 16)]
        (.vInt 0) (.vStruct []) [("comfort", .vInt 20)]) "battery"
      = sget [("battery", .vInt 77), ("holiday", .vStruct [("d", 3)]),
          ("eco", .vInt 16)] "battery" ∧
    sget (mergeData ["eco", "comfort"]
        [("battery", .vInt 77), ("holiday", .vStruct [("d", 3)]), ("eco", .vInt 16)]
        (.vInt 0) (.vStruct []) [("comfort", .vInt 20)]) "holiday"
      = sget [("battery", .vInt 77), ("holiday", .vStruct [("d", 3)]),
          ("eco", .vInt 16)] "holiday" ∧
    sget (mergeData ["eco", "comfort"]
        [("battery", .vInt 77), ("holiday", .vStruct [("d", 3)]), ("eco", .vInt 16)]
        (.vInt 0) (.vStruct []) [("comfort", .vInt 20)]) "eco"
      = sget [("battery", .vInt 77), ("holiday", .vStruct [("d", 3)]),
          ("eco", .vInt 16)] "eco" := by
  have h := c2_merge_carries_forward ["eco", "comfort"]
    [("battery", .vInt 77), ("holiday", .vStruct [("d", 3)]), ("eco", .vInt 16)]
    [("comfort", .vInt 20)] (.vInt 0) (.vStruct [])
    (by decide) (by decide) (by decide) (by decide)
  exact ⟨h.1, h.2.1, h.2.2 "eco" (by decide) (by decide)⟩

/-- C3 counterexample: a failed legacy cycle (temperature read raises
InvalidByteValueError, no previous data) raises UpdateFailed with the failure
counter left at 0, not incremented. -/
theorem c3_counterexample :
    Legacy.async_update_data ["eco"] ⟨0, []⟩
        ⟨true, .error .invalidByte, .ok (.vInt 50), .ok (.vStruct [("d", 1)])⟩
      = (.updateFailed (.err .invalidByte), ⟨0, []⟩) := rfl

/-- C3 (amended): the legacy failure counter is reset to 0 by a fully
successful cycle; an InvalidByteValueError with counter below RETRY_COUNT and
a previous snapshot increments the counter and returns the old snapshot
without raising; an InvalidByteValueError otherwise raises UpdateFailed with
the counter unchanged; every other error increments the counter and raises
UpdateFailed naming the cause. -/
theorem c3_failure_counter_cases (allTemps : List String) (st : CoordState)
    (b : AttemptBehavior) :
    (∀ d, Legacy.updateBody allTemps st b = .ok d →
      Legacy.async_update_data allTemps st b = (.snapshot d, ⟨0, d⟩)) ∧
    (Legacy.updateBody allTemps st b = .error (.err .invalidByte) →
      ((st.failed_update_count < RETRY_COUNT ∧ st.data ≠ [] →
        Legacy.async_update_data allTemps st b
          = (.snapshot st.data, ⟨st.failed_update_count + 1, st.data⟩)) ∧
       (¬ (st.failed_update_count < RETRY_COUNT ∧ st.data ≠ []) →
        Legacy.async_update_data allTemps st b
          = (.updateFailed (.err .invalidByte), st)))) ∧
    (∀ e, Legacy.updateBody allTemps st b = .error e → e ≠ .err .invalidByte →
      Legacy.async_update_data allTemps st b
        = (.updateFailed e, ⟨st.failed_update_count + 1, st.data⟩)) := by
  refine ⟨?_, ?_, ?_⟩
  · intro d hd
    simp only [Legacy.async_update_data, hd, Legacy.handleUpdateError]
  · intro hd
    constructor
    · intro hcond
      simp only [Legacy.async_update_data, hd, Legacy.handleUpdateError, if_pos hcond]
    · intro hcond
      simp only [Legacy.async_update_data, hd, Legacy.handleUpdateError, if_neg hcond]
  · intro e he hne
    simp only [Legacy.async_update_data, he]
    cases e with
    | notReady => simp [Legacy.handleUpdateError]
    | err k =>
      cases k with
      | invalidByte => exact absurd rfl hne
      | timeout => simp [Legacy.handleUpdateError]
      | bleak => simp [Legacy.handleUpdateError]
      | valueError => simp [Legacy.handleUpdateError]
      | other => simp [Legacy.handleUpdateError]

/-- Witness for C3 (amended), success branch: a fully successful legacy cycle
resets the counter from 2 to 0 and returns the freshly built snapshot. -/
theorem c3_failure_counter_cases_witness :
    Legacy.async_update_data ["eco"] ⟨2, [("battery", .vInt 9)]⟩
        ⟨true, .ok [("eco", .vInt 18)], .ok (.vInt 40), .ok (.vStruct [("d", 1)])⟩
      = (.snapshot [("eco", .vInt 18), ("holiday", .vStruct [("d", 1)]),
          ("battery", .vInt 40)],
         ⟨0, [("eco", .vInt 18), ("holiday", .vStruct [("d", 1)]),
          ("battery", .vInt 40)]⟩) :=
  (c3_failure_counter_cases ["eco"] ⟨2, [("battery", .vInt 9)]⟩
    ⟨true, .ok [("eco", .vInt 18)], .ok (.vInt 40), .ok (.vStruct [("d", 1)])⟩).1
    [("eco", .vInt 18), ("holiday", .vStruct [("d", 1)]), ("battery", .vInt 40)] rfl

/-- C4: in the refined coordinator, a malformed-byte error on the battery
read with successful temperatures is swallowed inside the attempt body (the
loop variables keep their previous battery/holiday values) and consumes none
of the retry budget: even after n such attempts for arbitrary n the loop has
not raised UpdateFailed; but because of the missing loop break it also never
returns the merged snapshot. -/
theorem c4_optional_swallowed_no_budget (allTemps : List String)
    (prev t : Snapshot) (n : Nat) :
    (∀ v : Vars, Eurotronic.runAttempt v (battMalB t)
        = (.completed ⟨t, v.battery, v.holiday⟩, false)) ∧
    Eurotronic.async_update_data allTemps prev (List.replicate n (battMalB t))
      = (.moreAttempts, n) :=
  ⟨fun _ => rfl,
   pollLoop_replicate_completed allTemps prev (battMalB t)
     (fun v => ⟨⟨t, v.battery, v.holiday⟩, false, rfl⟩) n 0 initVars (by decide)⟩

/-- C5: the entity availability property returns true exactly when the
failure counter is below 3 and the device address is present, and false
exactly when the counter reached 3 or the address is absent. -/
theorem c5_available_iff (c : Nat) (p : Bool) :
    (available c p = true ↔ (c < 3 ∧ p = true)) ∧
    (available c p = false ↔ (3 ≤ c ∨ p = false)) := by
  cases p <;> simp [available, RETRY_COUNT]

/-- C6 counterexample: the legacy send_command performs a single attempt: a
first BleakError immediately raises the communication error, with no retry,
even though the refined dispatcher would have retried the same session and
succeeded on the second attempt. -/
theorem c6_counterexample :
    Legacy.send_command ⟨true, .error .bleak⟩ = .commError .bleak ∧
    Eurotronic.send_command [⟨true, .error .bleak⟩, ⟨true, .ok (.vInt 1)⟩]
      = (.ok (.vInt 1), 2, 1) := ⟨rfl, rfl⟩

/-- C6 (amended): the refined send_command retries retryable errors within
one invocation, re-acquiring the connection each attempt and logging one
informational entry per retry: with k failures then success it returns the
operation result after exactly k+1 attempts and k log entries when k is
below RETRY_COUNT, and raises the communication error naming the last cause
after exactly RETRY_COUNT attempts and RETRY_COUNT - 1 log entries
otherwise. -/
theorem c6_retry_exactness (k : Nat) (e : ErrKind) (v : Val)
    (rest : List CmdAttempt) (he : e.retryable = true) :
    (k < RETRY_COUNT →
      Eurotronic.send_command
          (List.replicate k ⟨true, .error e⟩ ++ (⟨true, .ok v⟩ :: rest))
        = (.ok v, k + 1, k)) ∧
    (RETRY_COUNT ≤ k →
      Eurotronic.send_command
          (List.replicate k ⟨true, .error e⟩ ++ (⟨true, .ok v⟩ :: rest))
        = (.commError e, RETRY_COUNT, RETRY_COUNT - 1)) := by
  constructor
  · intro hk
    exact cmdLoop_fail_then_ok e he v rest k 0 (by omega)
  · intro hk
    exact cmdLoop_fail_exhausted e he (⟨true, .ok v⟩ :: rest) k 0 (by decide) (by omega)

/-- Witness for C6 (amended): one timeout then success yields the result
after two attempts and one retry log entry. -/
theorem c6_retry_exactness_witness :
    Eurotronic.send_command
        (List.replicate 1 ⟨true, .error .timeout⟩ ++ (⟨true, .ok (.vInt 5)⟩ :: []))
      = (.ok (.vInt 5), 2, 1) :=
  (c6_retry_exactness 1 .timeout (.vInt 5) [] rfl).1 (by decide)

/-- C7: a ValueError from the device operation is surfaced as
ServiceValidationError after exactly one attempt, with no retry and no retry
log entry, whatever further attempts the session would have allowed, and the
coordinator state (failure counter and stored data) is unchanged; the legacy
variant behaves the same way. -/
theorem c7_validation_short_circuit (rest : List CmdAttempt) (st : CoordState) :
    Eurotronic.send_command (⟨true, .error .valueError⟩ :: rest)
      = (.validationError, 1, 0) ∧
    Eurotronic.send_command_st st (⟨true, .error .valueError⟩ :: rest)
      = ((.validationError, 1, 0), st) ∧
    Legacy.send_command_st st ⟨true, .error .valueError⟩ = (.validationError, st) :=
  ⟨rfl, rfl, rfl⟩

/-- C8 counterexample: a poll on a session that acquires but is not connected
raises UpdateFailed (the generic except-clause wraps the ConfigEntryNotReady)
in both variants, instead of surfacing a device-not-ready condition distinct
from the cycle-level update failure. -/
theorem c8_counterexample :
    Eurotronic.async_update_data ["eco"] []
        [⟨false, .ok [], .ok .vNone, .ok .vNone⟩]
      = (.updateFailed .notReady, 1) ∧
    Legacy.async_update_data ["eco"] ⟨0, []⟩ ⟨false, .ok [], .ok .vNone, .ok .vNone⟩
      = (.updateFailed .notReady, ⟨1, []⟩) := ⟨rfl, rfl⟩

/-- C8 (amended): on a not-connected session, the dispatch path does surface
the ConfigEntryNotReady distinctly after a single attempt with no internal
retries (both variants), while the polling path of both variants converts it
into UpdateFailed naming ConfigEntryNotReady as cause, after a single attempt
and without internal retries (the legacy variant also increments the
counter). -/
theorem c8_not_ready_paths (op : Except ErrKind Val) (rest : List CmdAttempt)
    (tb : Except ErrKind Snapshot) (bb hb : Except ErrKind Val)
    (arest : List AttemptBehavior) (allTemps : List String) (prev : Snapshot)
    (st : CoordState) :
    Eurotronic.send_command (⟨false, op⟩ :: rest) = (.notReady, 1, 0) ∧
    Eurotronic.async_update_data allTemps prev (⟨false, tb, bb, hb⟩ :: arest)
      = (.updateFailed .notReady, 1) ∧
    Legacy.send_command ⟨false, op⟩ = .notReady ∧
    Legacy.async_update_data allTemps st ⟨false, tb, bb, hb⟩
      = (.updateFailed .notReady, ⟨st.failed_update_count + 1, st.data⟩) :=
  ⟨rfl, rfl, rfl, rfl⟩

/-- C9: the refined send_command returns the result produced by the device
operation, but the legacy send_command binds it to a local and never returns
it: the caller receives None, not the operation result. -/
theorem c9_result_discarded :
    Eurotronic.send_command [⟨true, .ok (.vInt 1)⟩] = (.ok (.vInt 1), 1, 0) ∧
    Legacy.send_command ⟨true, .ok (.vInt 1)⟩ = .implicitNone ∧
    CmdOutcome.implicitNone ≠ CmdOutcome.ok (.vInt 1) :=
  ⟨rfl, rfl, by decide⟩

/-- C10: when the battery read raises InvalidByteValueError in the refined
attempt body, get_holiday_async is never invoked in that attempt (the boolean
trace is false), the body completes with the holiday loop variable keeping
its previous value, and the merge expression would carry the previously
stored holiday forward - though the cycle itself never reaches it. -/
theorem c10_holiday_skipped (allTemps : List String) (prev t : Snapshot)
    (v : Vars) (hh : Except ErrKind Val) (hmem : "holiday" ∉ allTemps)
    (hfalsy : v.holiday.truthy = false) :
    Eurotronic.runAttempt v ⟨true, .ok t, .error .invalidByte, hh⟩
      = (.completed ⟨t, v.battery, v.holiday⟩, false) ∧
    sget (mergeData allTemps prev v.battery v.holiday t) "holiday"
      = sget prev "holiday" := by
  constructor
  · rfl
  · rw [sget_mergeData_holiday _ _ _ _ _ hmem, pyOr_falsy _ _ hfalsy]

/-- Witness for C10: with a stored holiday value and a battery read that
raises InvalidByteValueError, the attempt never asks for holiday data and the
merge keeps the stored holiday value. -/
theorem c10_holiday_skipped_witness :
    Eurotronic.runAttempt ⟨[], .vInt 0, .vStruct []⟩
        ⟨true, .ok [("eco", .vInt 16)], .error .invalidByte, .ok (.vStruct [("x", 9)])⟩
      = (.completed ⟨[("eco", .vInt 16)], .vInt 0, .vStruct []⟩, false) ∧
    sget (mergeData ["eco"] [("holiday", .vStruct [("d", 1)])] (.vInt 0)
        (.vStruct []) [("eco", .vInt 16)]) "holiday"
      = sget [("holiday", .vStruct [("d", 1)])] "holiday" :=
  c10_holiday_skipped ["eco"] [("holiday", .vStruct [("d", 1)])] [("eco", .vInt 16)]
    ⟨[], .vInt 0, .vStruct []⟩ (.ok (.vStruct [("x", 9)])) (by decide) rfl

end CometBlue
